import Mathlib

/-!
Verification development for the grid tracker's Gap Reconciliation Engine.

Python strings are embedded as `List Char` (`PyStr`); `datetime` instants are
embedded as seconds since the Unix epoch (`Int`), with the proleptic-Gregorian
civil-calendar conversions implemented explicitly so that timestamp formatting
and parsing are executable.  Fallible Python code (functions whose body can
raise and whose caller catches) is embedded as `Option`-returning functions.
SQLite rows are embedded as association lists keyed by the stored timestamp
string; nullable columns are `Option` fields.
-/

namespace Grid

/-- Python `str` values, embedded as lists of characters. -/
abbrev PyStr := List Char

/-- The last decimal digit of `n` as a character (used to build the fixed-width
fields of `strftime`-style output). -/
def digitChar (n : Nat) : Char :=
  match n % 10 with
  | 0 => '0' | 1 => '1' | 2 => '2' | 3 => '3' | 4 => '4'
  | 5 => '5' | 6 => '6' | 7 => '7' | 8 => '8' | _ => '9'

/-- Two-digit zero-padded decimal rendering (`%02d` for values below 100). -/
def pad2 (n : Nat) : PyStr := [digitChar (n / 10), digitChar n]

/-- Four-digit zero-padded decimal rendering (`%04d` for values below 10000;
`datetime` years are always in `1..9999`). -/
def pad4 (n : Nat) : PyStr :=
  [digitChar (n / 1000), digitChar (n / 100), digitChar (n / 10), digitChar n]

/-- Fields of a parsed `datetime` value: calendar date, time of day, and an
optional UTC offset in minutes (present iff the source string carried one). -/
structure DateTimeFields where
  year : Nat
  month : Nat
  day : Nat
  hour : Nat
  minute : Nat
  second : Nat
  offMinutes : Option Int
  deriving Repr, DecidableEq

/-- Model of `datetime.strftime('%Y-%m-%dT%H:%M:%S')`: the seconds-qualified
ISO rendering used by `normalize_timestamp`'s offset branch. -/
def strftimeSec (dt : DateTimeFields) : PyStr :=
  pad4 dt.year ++ ['-'] ++ pad2 dt.month ++ ['-'] ++ pad2 dt.day ++ ['T'] ++
  pad2 dt.hour ++ [':'] ++ pad2 dt.minute ++ [':'] ++ pad2 dt.second

/-- Is `c` an ASCII decimal digit? -/
def isDigitCh (c : Char) : Bool := decide ('0' ≤ c) && decide (c ≤ '9')

/-- Numeric value of an ASCII digit character. -/
def digitVal (c : Char) : Nat := c.toNat - 48

/-- Read exactly two digit characters as a number. -/
def read2 : PyStr → Option (Nat × PyStr)
  | a :: b :: rest =>
    if isDigitCh a && isDigitCh b then
      some (10 * digitVal a + digitVal b, rest)
    else none
  | _ => none

/-- Read exactly four digit characters as a number. -/
def read4 : PyStr → Option (Nat × PyStr)
  | a :: b :: c :: d :: rest =>
    if isDigitCh a && isDigitCh b && isDigitCh c && isDigitCh d then
      some (1000 * digitVal a + 100 * digitVal b + 10 * digitVal c + digitVal d, rest)
    else none
  | _ => none

/-- Expect character `c` at the head of the input. -/
def expectCh (c : Char) : PyStr → Option PyStr
  | x :: rest => if x = c then some rest else none
  | [] => none

/-- Days in a month of the proleptic Gregorian calendar. -/
def daysInMonth (y m : Nat) : Nat :=
  if m = 2 then
    if y % 4 = 0 && (y % 100 ≠ 0 || y % 400 = 0) then 29 else 28
  else if m = 4 || m = 6 || m = 9 || m = 11 then 30
  else 31

/-- Parse an optional `±HH:MM` UTC offset suffix (must consume all input). -/
def readOffset : PyStr → Option (Option Int)
  | [] => some none
  | c :: rest =>
    if c = '+' || c = '-' then
      match read2 rest with
      | some (oh, rest1) =>
        match expectCh ':' rest1 with
        | some rest2 =>
          match read2 rest2 with
          | some (om, []) =>
            if oh ≤ 23 && om ≤ 59 then
              some (some (if c = '+' then (60 * oh + om : Int) else -(60 * oh + om : Int)))
            else none
          | _ => none
        | none => none
      | none => none
    else none

/-- Parse the `HH:MM[:SS]` time part followed by an optional offset. -/
def readTime (s : PyStr) : Option (Nat × Nat × Nat × Option Int) :=
  match read2 s with
  | none => none
  | some (hh, s1) =>
    match expectCh ':' s1 with
    | none => none
    | some s2 =>
      match read2 s2 with
      | none => none
      | some (mi, s3) =>
        if hh ≤ 23 && mi ≤ 59 then
          match s3 with
          | ':' :: s4 =>
            match read2 s4 with
            | none => none
            | some (ss, s5) =>
              if ss ≤ 59 then
                match readOffset s5 with
                | some off => some (hh, mi, ss, off)
                | none => none
              else none
          | _ =>
            match readOffset s3 with
            | some off => some (hh, mi, 0, off)
            | none => none
        else none

/-- Model of `datetime.fromisoformat` restricted to the grammar the repository
exchanges: `YYYY-MM-DD`, optionally followed by `T` or a space and
`HH:MM[:SS]`, optionally followed by a `±HH:MM` offset.  Returns `none` where
the Python call raises `ValueError`. -/
def fromisoformatModel (s : PyStr) : Option DateTimeFields :=
  match read4 s with
  | none => none
  | some (y, s1) =>
    match expectCh '-' s1 with
    | none => none
    | some s2 =>
      match read2 s2 with
      | none => none
      | some (m, s3) =>
        match expectCh '-' s3 with
        | none => none
        | some s4 =>
          match read2 s4 with
          | none => none
          | some (d, s5) =>
            if 1 ≤ y && 1 ≤ m && m ≤ 12 && 1 ≤ d && d ≤ daysInMonth y m then
              match s5 with
              | [] => some ⟨y, m, d, 0, 0, 0, none⟩
              | c :: s6 =>
                if c = 'T' || c = ' ' then
                  match readTime s6 with
                  | some (hh, mi, ss, off) => some ⟨y, m, d, hh, mi, ss, off⟩
                  | none => none
                else none
            else none

/-- Model of Python `str.replace('Z', '+00:00')`. -/
def replaceZ (s : PyStr) : PyStr :=
  s.flatMap (fun c => if c = 'Z' then ['+', '0', '0', ':', '0', '0'] else [c])

/-- Does the string end with `Z` (Python `str.endswith('Z')`)? -/
def endsWithZ (s : PyStr) : Bool := s.getLast? == some 'Z'

/-- Drop the seconds field: model of the final step of `normalize_timestamp`
(`timestamp_str[:16] + "Z"` when the string is longer than 17 characters). -/
def truncateTo16Z (s : PyStr) : PyStr :=
  if s.length > 17 then s.take 16 ++ ['Z'] else s

/-- Model of `timestamp_utils.normalize_timestamp`.  Returns `none` exactly
where the Python function raises (the `'+' in timestamp_str` branch with an
unparseable string); otherwise `some` of the returned string. -/
def normalizeTimestamp (s : PyStr) : Option PyStr :=
  if s = [] then some s
  else if '+' ∈ s then
    match fromisoformatModel (replaceZ s) with
    | none => none
    | some dt => some (truncateTo16Z (strftimeSec dt))
  else if endsWithZ s then some (truncateTo16Z s)
  else some (truncateTo16Z (s ++ ['Z']))

/-- Days since 1970-01-01 of a proleptic-Gregorian civil date
(era-based algorithm; all divisions reach nonnegative operands). -/
def daysFromCivil (y m d : Nat) : Int :=
  let yy : Int := (y : Int) - (if m ≤ 2 then 1 else 0)
  let era : Int := (if 0 ≤ yy then yy else yy - 399) / 400
  let yoe : Int := yy - era * 400
  let mp : Int := (m : Int) + (if 2 < m then -3 else 9)
  let doy : Int := (153 * mp + 2) / 5 + (d : Int) - 1
  let doe : Int := yoe * 365 + yoe / 4 - yoe / 100 + doy
  era * 146097 + doe - 719468

/-- Civil date of a days-since-epoch count (inverse of `daysFromCivil`). -/
def civilFromDays (z0 : Int) : Int × Nat × Nat :=
  let z : Int := z0 + 719468
  let era : Int := (if 0 ≤ z then z else z - 146096) / 146097
  let doe : Int := z - era * 146097
  let yoe : Int := (doe - doe / 1460 + doe / 36524 - doe / 146096) / 365
  let y : Int := yoe + era * 400
  let doy : Int := doe - (365 * yoe + yoe / 4 - yoe / 100)
  let mp : Int := (5 * doy + 2) / 153
  let d : Int := doy - (153 * mp + 2) / 5 + 1
  let m : Int := mp + (if mp < 10 then 3 else -9)
  (y + (if m ≤ 2 then 1 else 0), m.toNat, d.toNat)

/-- The UTC instant (seconds since the epoch) denoted by parsed datetime
fields; an explicit offset is subtracted, a missing offset is treated as UTC
(every timestamp the engine compares carries a `Z`/`+00:00` designator). -/
def toSecondsUTC (dt : DateTimeFields) : Int :=
  86400 * daysFromCivil dt.year dt.month dt.day +
    3600 * dt.hour + 60 * dt.minute + dt.second - 60 * (dt.offMinutes.getD 0)

/-- Model of `timestamp_utils.format_timestamp` /
`strftime('%Y-%m-%dT%H:%MZ')`: render an instant without its seconds field. -/
def formatTimestamp (t : Int) : PyStr :=
  let days := t.fdiv 86400
  let rem := (t.fmod 86400).toNat
  let ymd := civilFromDays days
  pad4 ymd.1.toNat ++ ['-'] ++ pad2 ymd.2.1 ++ ['-'] ++ pad2 ymd.2.2 ++ ['T'] ++
    pad2 (rem / 3600) ++ [':'] ++ pad2 (rem % 3600 / 60) ++ ['Z']

/-- Model of `timestamp_utils.parse_timestamp`: strip a trailing `Z` into an
explicit zero offset, then parse; `none` where the Python function raises. -/
def parseTimestampM (s : PyStr) : Option Int :=
  if endsWithZ s then (fromisoformatModel (replaceZ s)).map toSecondsUTC
  else (fromisoformatModel s).map toSecondsUTC

/-- Model of `datetime.fromisoformat(ts.replace('Z', '+00:00'))`, the parsing
idiom `main.py` and the interpolator use directly. -/
def parseIsoZ (s : PyStr) : Option Int :=
  (fromisoformatModel (replaceZ s)).map toSecondsUTC

/-- Byte-wise (ASCII) lexicographic `≤` on strings: SQLite's BINARY collation,
which orders the `timestamp` TEXT column. -/
def lexLe : PyStr → PyStr → Bool
  | [], _ => true
  | _ :: _, [] => false
  | a :: as_, b :: bs => if a = b then lexLe as_ bs else decide (a.val < b.val)

/-- Lexicographically smallest element (SQL `MIN` over a TEXT column). -/
def listLexMin : List PyStr → PyStr
  | [] => []
  | s :: rest => rest.foldl (fun acc x => if lexLe x acc then x else acc) s

/-- Lexicographically largest element (SQL `MAX` over a TEXT column). -/
def listLexMax : List PyStr → PyStr
  | [] => []
  | s :: rest => rest.foldl (fun acc x => if lexLe acc x then x else acc) s

/-- Ordered insertion (ascending) used to model Python `list.sort()` on the
missing-timestamp list. -/
def insSortedInt (x : Int) : List Int → List Int
  | [] => [x]
  | y :: ys => if y ≤ x then y :: insSortedInt x ys else x :: y :: ys

/-- Ascending sort of the missing instants (`missing_timestamps.sort()`). -/
def sortInts (l : List Int) : List Int := l.foldl (fun acc x => insSortedInt x acc) []

/-- The consolidation walk of `DataGapDetector._find_gaps`: merge a missing
instant into the open gap exactly when it is 30 minutes (1800 s) after the
current gap end — the source hardcodes `timedelta(minutes=30)` here. -/
def consolidateWalk (cs ce : Int) : List Int → List (Int × Int)
  | [] => [(cs, ce)]
  | t :: rest =>
    if t = ce + 1800 then consolidateWalk cs t rest
    else (cs, ce) :: consolidateWalk t t rest

/-- Missing-instant computation of `_find_gaps`: an expected timestamp is
missing when its normalized form is not among the normalized stored
timestamps; each missing one is parsed back to an instant.  `none` models a
normalization/parsing exception escaping to `detect_data_gaps`' handler. -/
def missingOf (nacts : List PyStr) : List PyStr → Option (List Int)
  | [] => some []
  | e :: rest =>
    match normalizeTimestamp e with
    | none => none
    | some ne =>
      if ne ∈ nacts then missingOf nacts rest
      else
        match parseTimestampM e with
        | none => none
        | some t => (missingOf nacts rest).map (t :: ·)

/-- Model of `DataGapDetector._find_gaps`. -/
def findGaps (expected actual : List PyStr) : Option (List (Int × Int)) :=
  match actual.mapM normalizeTimestamp with
  | none => none
  | some nacts =>
    match missingOf nacts expected with
    | none => none
    | some missing =>
      match sortInts missing with
      | [] => some []
      | m :: rest => some (consolidateWalk m m rest)

/-- Model of `DataGapDetector._generate_expected_timestamps`: the instants
`start, start + g, …` up to and including `end`, formatted without seconds.
(The source's `while` loop never terminates for non-positive granularity;
that region is modeled as the empty sequence and is out of scope.) -/
def generateExpected (s e g : Int) : List PyStr :=
  if g ≤ 0 then []
  else (List.range (((e - s).toNat / (60 * g).toNat) + 1)).map
    (fun i => formatTimestamp (s + 60 * g * i))

/-- Outcome of a `detect_data_gaps` call.  The source logs a distinct message
and returns `[]` on each failure path; the embedding keeps the branches
distinguishable. -/
inductive DetectOutcome where
  | tableMissing
  | emptySeries
  | invalidWindow
  | internalError
  | ok (gaps : List (Int × Int))
  deriving Repr, DecidableEq

/-- The body of `detect_data_gaps` after the analysis window is resolved:
validate the window, select the stored timestamps in range (SQLite TEXT
comparison against the formatted bounds), generate the expected grid and
diff.  The duplicate-timestamp scan is a pure diagnostic and is omitted. -/
def detectCore (stored : List PyStr) (g s e : Int) : DetectOutcome :=
  if s ≥ e then .invalidWindow
  else
    let lo := formatTimestamp s
    let hi := formatTimestamp e
    let actual := stored.filter (fun ts => lexLe lo ts && lexLe ts hi)
    match findGaps (generateExpected s e g) actual with
    | none => .internalError
    | some gaps => .ok gaps

/-- Model of `DataGapDetector.detect_data_gaps`.  `stored` is the content of
the series' `timestamp` column; `startOpt`/`endOpt` are the optional explicit
window bounds. -/
def detectDataGaps (tableExists : Bool) (stored : List PyStr) (g : Int)
    (startOpt endOpt : Option Int) : DetectOutcome :=
  if tableExists then
    if startOpt.isNone || endOpt.isNone then
      if stored.isEmpty then .emptySeries
      else
        let mn := listLexMin stored
        let mx := listLexMax stored
        if mn.isEmpty || mx.isEmpty then .emptySeries
        else
          match (match startOpt with | some s => some s | none => parseTimestampM mn),
                (match endOpt with | some e => some e | none => parseTimestampM mx) with
          | some s, some e => detectCore stored g s e
          | _, _ => .internalError
    else
      match startOpt, endOpt with
      | some s, some e => detectCore stored g s e
      | _, _ => .internalError
  else .tableMissing

/-- Ordered insertion by gap start, keeping existing entries with an equal or
smaller start in front (Python's stable `sorted(gaps, key=fst)`). -/
def insGapByStart (x : Int × Int) : List (Int × Int) → List (Int × Int)
  | [] => [x]
  | y :: ys => if y.1 ≤ x.1 then y :: insGapByStart x ys else x :: y :: ys

/-- Stable sort of gaps by start time. -/
def sortGapsByStart (l : List (Int × Int)) : List (Int × Int) :=
  l.foldl (fun acc x => insGapByStart x acc) []

/-- The merge walk of `GridTracker._group_consecutive_gaps` over the sorted
gaps: extend the open range when the next gap starts exactly one granularity
interval (`gSec` seconds) after the current range end. -/
def gccWalk (gSec cs ce : Int) : List (Int × Int) → List (Int × Int)
  | [] => [(cs, ce)]
  | (gs, ge) :: rest =>
    if gs = ce + gSec then gccWalk gSec cs ge rest
    else (cs, ce) :: gccWalk gSec gs ge rest

/-- Model of `GridTracker._group_consecutive_gaps` (`g` in minutes). -/
def groupConsecutiveGaps (gaps : List (Int × Int)) (g : Int) : List (Int × Int) :=
  match sortGapsByStart gaps with
  | [] => []
  | (s0, e0) :: rest => gccWalk (60 * g) s0 e0 rest

/-- First row stored under a key (the UNIQUE `timestamp` column makes it the
only one). -/
def lookupRow {β : Type} : List (PyStr × β) → PyStr → Option β
  | [], _ => none
  | p :: rest, k => if p.1 = k then some p.2 else lookupRow rest k

/-- A row of `carbon_intensity_30min_data` (besides its key): the emissions
value and the nullable `is_forecast` / `is_interpolated` columns. -/
structure CIRow where
  emissions : ℚ
  is_forecast : Option Bool
  is_interpolated : Option Bool
  deriving Repr, DecidableEq

/-- The carbon-intensity table: timestamp-keyed rows (the `timestamp` column
is UNIQUE, so an association list keyed by it). -/
abbrev CIStore := List (PyStr × CIRow)

/-- Model of `Database.insert_carbon_intensity_data`: normalize the timestamp,
consult the existing row's `is_forecast`, skip the write when it would demote
an actual to a forecast, otherwise `INSERT OR REPLACE`.  Returns the Python
result together with the table state. -/
def insertCarbonIntensityData (st : CIStore) (ts : PyStr) (em : ℚ)
    (isF : Bool) : Bool × CIStore :=
  match normalizeTimestamp ts with
  | none => (false, st)
  | some nts =>
    match lookupRow st nts with
    | some r =>
      if r.is_forecast = some false ∧ isF then (true, st)
      else (true, (st.filter (fun p => ¬ p.1 = nts)) ++ [(nts, ⟨em, some isF, some false⟩)])
    | none => (true, st ++ [(nts, ⟨em, some isF, some false⟩)])

/-- Nullable fuel columns of `generation_30min_data` (each may be absent,
distinct from zero). -/
structure GenFuels where
  biomass : Option ℚ
  fossil_gas : Option ℚ
  fossil_hard_coal : Option ℚ
  fossil_oil : Option ℚ
  hydro_pumped_storage : Option ℚ
  hydro_run_of_river : Option ℚ
  nuclear : Option ℚ
  other : Option ℚ
  solar : Option ℚ
  wind_offshore : Option ℚ
  wind_onshore : Option ℚ
  deriving Repr, DecidableEq

/-- A row of `generation_30min_data` besides its timestamp key. -/
structure GenRow where
  settlement_period : Option Int
  fuels : GenFuels
  deriving Repr, DecidableEq

/-- The generation table, keyed by its UNIQUE `timestamp` column. -/
abbrev GenStore := List (PyStr × GenRow)

/-- Model of `Database.insert_generation_data`: normalize the timestamp and
insert only when no row with that key exists; an existing row is left exactly
as it is and the call still reports success. -/
def insertGenerationData (st : GenStore) (ts : PyStr) (sp : Int)
    (fd : GenFuels) : Bool × GenStore :=
  match normalizeTimestamp ts with
  | none => (false, st)
  | some nts =>
    match lookupRow st nts with
    | some _ => (true, st)
    | none => (true, st ++ [(nts, ⟨some sp, fd⟩)])

/-- A data point returned by a remote-fetch collaborator, as the dictionaries
`CarbonIntensityAPI.get_intensity_data` produces: `is_forecast` is optional
because that client omits the key entirely. -/
structure FetchedPoint where
  timestamp : PyStr
  emissions : ℚ
  is_forecast : Option Bool
  deriving Repr, DecidableEq

/-- The promotion-candidate test of `GridTracker.run_forecast_update`:
`point['timestamp'] == timestamp_str and not point.get('is_forecast', True)`.
Note it compares the raw timestamp strings, not their normalized forms. -/
def forecastPromotionMatch (p : FetchedPoint) (recordTs : PyStr) : Bool :=
  p.timestamp == recordTs && !(p.is_forecast.getD true)

/-- The inner loop of `run_forecast_update` for one stored forecast record:
scan the fetched points for the first promotion match, write it as an actual,
and stop.  Returns the number of records updated (0 or 1) and the store. -/
def processForecastRecord (recordTs : PyStr) (dataPoints : List FetchedPoint)
    (st : CIStore) : Nat × CIStore :=
  match dataPoints with
  | [] => (0, st)
  | p :: rest =>
    if forecastPromotionMatch p recordTs then
      let r := insertCarbonIntensityData st p.timestamp p.emissions false
      ((if r.1 then 1 else 0), r.2)
    else processForecastRecord recordTs rest st

/-- Per-series backfill configuration (`config['target_oldest_days']`,
`config['hours_per_call']`, `config['max_calls_per_cycle']`). -/
structure BackfillConfig where
  target_oldest_days : Nat
  hours_per_call : Nat
  max_calls_per_cycle : Nat
  deriving Repr, DecidableEq

/-- What `get_table_stats` told the backfill about a series: an error, an
empty table, or an oldest stored timestamp (`none` inside `hasData` models a
stored timestamp `datetime.fromisoformat` cannot parse). -/
inductive TableStats where
  | statsError
  | noData
  | hasData (earliest : Option Int)
  deriving Repr, DecidableEq

/-- The fetch loop of `backfill_table_data`: one window per `call_num`, each
window clipped at the oldest stored instant; a fetch that raises (`none`)
aborts the cycle with failure, an empty response is skipped.  Returns
(cycle result, api calls issued, points inserted). -/
def backfillLoop (api : Int → Int → Option (List FetchedPoint))
    (dbIns : FetchedPoint → Bool) (oldest currentStart hpcSec : Int) :
    Nat → Nat → Nat → Nat → Bool × Nat × Nat
  | _, 0, calls, ins => (true, calls, ins)
  | callNum, fuel + 1, calls, ins =>
    match api (currentStart + hpcSec * callNum)
        (if currentStart + hpcSec * callNum + hpcSec ≥ oldest then oldest
          else currentStart + hpcSec * callNum + hpcSec) with
    | none => (false, calls + 1, ins)
    | some pts =>
      if pts.isEmpty then
        backfillLoop api dbIns oldest currentStart hpcSec (callNum + 1) fuel (calls + 1) ins
      else
        backfillLoop api dbIns oldest currentStart hpcSec (callNum + 1) fuel (calls + 1)
          (ins + (pts.filter dbIns).length)

/-- `target_oldest_time`: the retention horizon the backfill walks toward. -/
def backfillTarget (now : Int) (cfg : BackfillConfig) : Int :=
  now - 86400 * (cfg.target_oldest_days : Int)

/-- `calls_needed`: the hour deficit converted to a call count
(`ceil(hours / hours_per_call)`), capped at the per-cycle budget. -/
def backfillCallsNeeded (oldest target : Int) (cfg : BackfillConfig) : Nat :=
  min cfg.max_calls_per_cycle
    (((oldest - target).toNat / 3600 + cfg.hours_per_call - 1) / cfg.hours_per_call)

/-- The budget computation and fetch loop of `backfill_table_data`, given the
resolved oldest stored instant: compute the deficit against the retention
target, cap the call count at `max_calls_per_cycle`, and walk the windows.
`hours_per_call = 0` models the `ZeroDivisionError` the outer handler turns
into failure. -/
def backfillFrom (oldest now : Int) (cfg : BackfillConfig)
    (api : Int → Int → Option (List FetchedPoint))
    (dbIns : FetchedPoint → Bool) : Bool × Nat × Nat :=
  if oldest ≤ backfillTarget now cfg then (true, 0, 0)
  else if cfg.hours_per_call = 0 then (false, 0, 0)
  else
    backfillLoop api dbIns oldest
      (oldest - 3600 * (cfg.hours_per_call : Int) *
        (backfillCallsNeeded oldest (backfillTarget now cfg) cfg : Int))
      (3600 * (cfg.hours_per_call : Int)) 0
      (backfillCallsNeeded oldest (backfillTarget now cfg) cfg) 0 0

/-- Model of `backfill_utils.backfill_table_data` for one series.  Times are
seconds since the epoch; `api` is the remote fetch collaborator (`none`
models a raised exception) and `dbIns` the provenance-aware upsert's success
flag.  An empty table backfills from `now`; an unparseable or missing stats
record fails before any fetch. -/
def backfillTableData (stats : TableStats) (now : Int) (cfg : BackfillConfig)
    (api : Int → Int → Option (List FetchedPoint))
    (dbIns : FetchedPoint → Bool) : Bool × Nat × Nat :=
  match stats with
  | .statsError => (false, 0, 0)
  | .hasData none => (false, 0, 0)
  | .noData => backfillFrom now now cfg api dbIns
  | .hasData (some oldest) => backfillFrom oldest now cfg api dbIns

/-- A neighbor sample as `GapInterpolator.get_surrounding_data` returns it for
the carbon-intensity series (`is_forecast` passed through Python `bool`, so a
NULL column reads as `false`). -/
structure CIPoint where
  timestamp : PyStr
  emissions : ℚ
  is_forecast : Bool
  deriving Repr, DecidableEq

/-- The record `interpolate_carbon_intensity` builds for insertion. -/
structure InterpData where
  timestamp : PyStr
  emissions : ℚ
  is_forecast : Bool
  is_interpolated : Bool
  deriving Repr, DecidableEq

/-- Nearest integer with ties to even (Python `round`'s rounding mode; exact
on rationals, and the values reached in this development are exact in binary
floating point as well). -/
def roundHalfEven (y : ℚ) : Int :=
  if y - ⌊y⌋ < 1 / 2 then ⌊y⌋
  else if 1 / 2 < y - ⌊y⌋ then ⌊y⌋ + 1
  else if ⌊y⌋ % 2 = 0 then ⌊y⌋ else ⌊y⌋ + 1

/-- Model of Python `round(x, 1)`. -/
def pyRound1 (x : ℚ) : ℚ := ((roundHalfEven (10 * x) : ℚ)) / 10

/-- The linear interpolation factor of `interpolate_carbon_intensity`:
`(gap - before) / (after - before)` in seconds, defaulting to `0.5` when the
neighbor span is not positive; `none` when a neighbor timestamp fails to
parse (the method's exception handler returns `None`). -/
def ciFactor (before after : CIPoint) (gapTime : Int) : Option ℚ :=
  match parseIsoZ before.timestamp, parseIsoZ after.timestamp with
  | some bt, some at2 =>
    let total : Int := at2 - bt
    let gapDiff : Int := gapTime - bt
    some (if 0 < total then (gapDiff : ℚ) / (total : ℚ) else 1 / 2)
  | _, _ => none

/-- Model of `GapInterpolator.interpolate_carbon_intensity`: linear value
between the neighbors, rounded to one decimal, forecast flag OR'd from the
neighbors, marked interpolated. -/
def interpolateCarbonIntensity (before after : CIPoint) (gapTime : Int) :
    Option InterpData :=
  match ciFactor before after gapTime with
  | none => none
  | some f =>
    some { timestamp := formatTimestamp gapTime
           emissions := pyRound1 (before.emissions + (after.emissions - before.emissions) * f)
           is_forecast := before.is_forecast || after.is_forecast
           is_interpolated := true }

/-- Model of `GapInterpolator.insert_interpolated_data` for the
carbon-intensity table: a plain `INSERT` after normalization, so a UNIQUE
collision raises and reports failure; on success the row carries
`is_interpolated = TRUE`. -/
def insertInterpolatedData (st : CIStore) (d : InterpData) : Bool × CIStore :=
  match normalizeTimestamp d.timestamp with
  | none => (false, st)
  | some nts =>
    match lookupRow st nts with
    | some _ => (false, st)
    | none => (true, st ++ [(nts, ⟨d.emissions, some d.is_forecast, some true⟩)])

/-! ## Helper lemmas -/

theorem digitChar_ne_plus (n : Nat) : digitChar n ≠ '+' := by
  unfold digitChar; split <;> decide

theorem not_plus_mem_pad2 (n : Nat) : '+' ∉ pad2 n := by
  intro h
  simp only [pad2, List.mem_cons, List.not_mem_nil, or_false] at h
  rcases h with h | h <;> exact digitChar_ne_plus _ h.symm

theorem not_plus_mem_pad4 (n : Nat) : '+' ∉ pad4 n := by
  intro h
  simp only [pad4, List.mem_cons, List.not_mem_nil, or_false] at h
  rcases h with h | h | h | h <;> exact digitChar_ne_plus _ h.symm

theorem strftimeSec_length (dt : DateTimeFields) : (strftimeSec dt).length = 19 := by
  simp [strftimeSec, pad2, pad4]

theorem not_plus_mem_strftimeSec (dt : DateTimeFields) : '+' ∉ strftimeSec dt := by
  intro h
  simp only [strftimeSec, List.append_assoc, List.mem_append, List.mem_singleton] at h
  rcases h with h | h | h | h | h | h | h | h | h | h | h
  · exact not_plus_mem_pad4 _ h
  · cases h
  · exact not_plus_mem_pad2 _ h
  · cases h
  · exact not_plus_mem_pad2 _ h
  · cases h
  · exact not_plus_mem_pad2 _ h
  · cases h
  · exact not_plus_mem_pad2 _ h
  · cases h
  exact not_plus_mem_pad2 _ h

theorem not_plus_mem_take {l : PyStr} (h : '+' ∉ l) (n : Nat) : '+' ∉ l.take n :=
  fun hm => h (List.mem_of_mem_take hm)

/-- A normalized-shape string (no `+`, trailing `Z`, at most 17 characters)
survives truncation untouched, and truncation of any `+`-free `Z`-terminated
string yields a normalized-shape string. -/
theorem truncateTo16Z_good (l : PyStr) (hp : '+' ∉ l) (hz : endsWithZ l = true) :
    '+' ∉ truncateTo16Z l ∧ endsWithZ (truncateTo16Z l) = true ∧
      (truncateTo16Z l).length ≤ 17 := by
  unfold truncateTo16Z
  split
  case isTrue hlen =>
    refine ⟨?_, ?_, ?_⟩
    · intro hm
      rcases List.mem_append.mp hm with hm | hm
      · exact not_plus_mem_take hp 16 hm
      · simp only [List.mem_singleton] at hm
        exact absurd hm (by decide)
    · simp [endsWithZ, List.getLast?_concat]
    · simp only [List.length_append, List.length_take, List.length_singleton]
      omega
  case isFalse hlen => exact ⟨hp, hz, by omega⟩

theorem truncateTo16Z_strftime_good (dt : DateTimeFields) :
    '+' ∉ truncateTo16Z (strftimeSec dt) ∧
      endsWithZ (truncateTo16Z (strftimeSec dt)) = true ∧
      (truncateTo16Z (strftimeSec dt)).length ≤ 17 := by
  unfold truncateTo16Z
  rw [if_pos (by rw [strftimeSec_length]; omega)]
  refine ⟨?_, ?_, ?_⟩
  · intro hm
    rcases List.mem_append.mp hm with hm | hm
    · exact not_plus_mem_take (not_plus_mem_strftimeSec dt) 16 hm
    · simp only [List.mem_singleton] at hm
      exact absurd hm (by decide)
  · simp [endsWithZ, List.getLast?_concat]
  · simp only [List.length_append, List.length_take, List.length_singleton]
    omega

/-- Any string of normalized shape is a fixed point of `normalize_timestamp`. -/
theorem normalizeTimestamp_fixed (o : PyStr)
    (h : o = [] ∨ ('+' ∉ o ∧ endsWithZ o = true ∧ o.length ≤ 17)) :
    normalizeTimestamp o = some o := by
  rcases h with h | ⟨hp, hz, hl⟩
  · subst h; rfl
  · have hne : ¬ o = [] := by
      intro h0; subst h0; simp [endsWithZ] at hz
    unfold normalizeTimestamp
    rw [if_neg hne, if_neg hp, if_pos hz]
    unfold truncateTo16Z
    rw [if_neg (by omega)]

/-- Every value `normalize_timestamp` returns has normalized shape. -/
theorem normalizeTimestamp_output {s o : PyStr} (h : normalizeTimestamp s = some o) :
    o = [] ∨ ('+' ∉ o ∧ endsWithZ o = true ∧ o.length ≤ 17) := by
  unfold normalizeTimestamp at h
  split at h
  case isTrue hs =>
    left
    cases h
    exact hs
  case isFalse hs =>
    split at h
    case isTrue hplus =>
      cases heq : fromisoformatModel (replaceZ s) with
      | none => rw [heq] at h; cases h
      | some dt =>
        rw [heq] at h
        cases h
        right
        exact truncateTo16Z_strftime_good dt
    case isFalse hplus =>
      split at h
      case isTrue hz =>
        cases h
        right
        exact truncateTo16Z_good s hplus hz
      case isFalse hz =>
        cases h
        right
        refine truncateTo16Z_good (s ++ ['Z']) ?_ ?_
        · intro hm
          rcases List.mem_append.mp hm with hm | hm
          · exact hplus hm
          · simp only [List.mem_singleton] at hm
            exact absurd hm (by decide)
        · simp [endsWithZ, List.getLast?_concat]

/-! ## Claim theorems -/

/-- Claim C9: `normalize_timestamp` is idempotent — whenever it returns a
value without raising, applying it to its own output returns that output
unchanged. -/
theorem claim_C9_normalize_idempotent (s o : PyStr)
    (h : normalizeTimestamp s = some o) : normalizeTimestamp o = some o :=
  normalizeTimestamp_fixed o (normalizeTimestamp_output h)

/-- Witness for C9 at a seconds-qualified UTC timestamp. -/
theorem claim_C9_normalize_idempotent_witness :
    normalizeTimestamp ("2023-07-14T00:00:00Z".data) = some ("2023-07-14T00:00Z".data) ∧
      normalizeTimestamp ("2023-07-14T00:00Z".data) = some ("2023-07-14T00:00Z".data) :=
  ⟨by decide, claim_C9_normalize_idempotent ("2023-07-14T00:00:00Z".data)
    ("2023-07-14T00:00Z".data) (by decide)⟩

/-- Looking up a key after filtering out every pair with that key finds
nothing (the `DELETE` half of `INSERT OR REPLACE`). -/
theorem lookupRow_filterOut {β : Type} (st : List (PyStr × β)) (k : PyStr) :
    lookupRow (st.filter (fun p => ¬ p.1 = k)) k = none := by
  induction st with
  | nil => rfl
  | cons p rest ih =>
    by_cases h : p.1 = k
    · simpa [List.filter, h] using ih
    · simpa [List.filter, h, lookupRow] using ih

/-- Lookup distributes over append when the first part misses. -/
theorem lookupRow_append_none {β : Type} (l1 l2 : List (PyStr × β)) (k : PyStr)
    (h : lookupRow l1 k = none) : lookupRow (l1 ++ l2) k = lookupRow l2 k := by
  induction l1 with
  | nil => rfl
  | cons p rest ih =>
    by_cases h' : p.1 = k
    · rw [lookupRow, if_pos h'] at h
      cases h
    · rw [lookupRow, if_neg h'] at h
      rw [List.cons_append, lookupRow, if_neg h']
      exact ih h

/-- Claim C2: the provenance-aware upsert never demotes an actual to a
forecast, and an actual write replaces a stored forecast in place. -/
theorem claim_C2_promotion_monotonic (st : CIStore) (ts nts : PyStr) (em : ℚ)
    (r : CIRow) (hn : normalizeTimestamp ts = some nts)
    (hl : lookupRow st nts = some r) :
    (r.is_forecast = some false → insertCarbonIntensityData st ts em true = (true, st)) ∧
    (r.is_forecast = some true →
      (insertCarbonIntensityData st ts em false).1 = true ∧
      lookupRow (insertCarbonIntensityData st ts em false).2 nts =
        some ⟨em, some false, some false⟩) := by
  constructor
  · intro hf
    unfold insertCarbonIntensityData
    rw [hn]
    dsimp only
    rw [hl]
    dsimp only
    rw [if_pos ⟨hf, rfl⟩]
  · intro hf
    unfold insertCarbonIntensityData
    rw [hn]
    dsimp only
    rw [hl]
    dsimp only
    rw [if_neg (by simp [hf])]
    refine ⟨rfl, ?_⟩
    rw [lookupRow_append_none _ _ _ (lookupRow_filterOut st nts)]
    simp [lookupRow]

/-- Witness for C2: an actual row survives a forecast write untouched, and a
forecast row is overwritten by an actual write. -/
theorem claim_C2_promotion_monotonic_witness :
    insertCarbonIntensityData [("2023-07-14T00:00Z".data, ⟨250, some false, some false⟩)]
      ("2023-07-14T00:00Z".data) 100 true =
      (true, [("2023-07-14T00:00Z".data, ⟨250, some false, some false⟩)]) ∧
    ((insertCarbonIntensityData [("2023-07-14T00:00Z".data, ⟨250, some true, some false⟩)]
        ("2023-07-14T00:00Z".data) 100 false).1 = true ∧
      lookupRow (insertCarbonIntensityData
        [("2023-07-14T00:00Z".data, ⟨250, some true, some false⟩)]
        ("2023-07-14T00:00Z".data) 100 false).2 ("2023-07-14T00:00Z".data) =
        some ⟨100, some false, some false⟩) :=
  ⟨(claim_C2_promotion_monotonic
      [("2023-07-14T00:00Z".data, ⟨250, some false, some false⟩)]
      ("2023-07-14T00:00Z".data) ("2023-07-14T00:00Z".data) 100
      ⟨250, some false, some false⟩ (by decide) (by decide)).1 rfl,
    (claim_C2_promotion_monotonic
      [("2023-07-14T00:00Z".data, ⟨250, some true, some false⟩)]
      ("2023-07-14T00:00Z".data) ("2023-07-14T00:00Z".data) 100
      ⟨250, some true, some false⟩ (by decide) (by decide)).2 rfl⟩

/-- Claim C10: the generation upsert is insert-if-absent only — a call whose
timestamp normalizes to an existing key reports success and leaves the whole
table, hence every field of the existing row, unchanged. -/
theorem claim_C10_generation_insert_if_absent (st : GenStore) (ts nts : PyStr)
    (sp : Int) (fd : GenFuels) (r : GenRow)
    (hn : normalizeTimestamp ts = some nts) (hl : lookupRow st nts = some r) :
    insertGenerationData st ts sp fd = (true, st) := by
  unfold insertGenerationData
  rw [hn]
  dsimp only
  rw [hl]

/-- Witness for C10: a seconds-qualified resubmission with different
settlement-period and fuel values changes nothing. -/
theorem claim_C10_generation_insert_if_absent_witness :
    insertGenerationData
      [("2023-07-14T00:00Z".data,
        ⟨some 1, ⟨some 5, none, none, none, none, none, none, none, none, none, none⟩⟩)]
      ("2023-07-14T00:00:00Z".data) 99
      ⟨some 7, some 8, none, none, none, none, none, none, none, none, none⟩ =
      (true, [("2023-07-14T00:00Z".data,
        ⟨some 1, ⟨some 5, none, none, none, none, none, none, none, none, none, none⟩⟩)]) :=
  claim_C10_generation_insert_if_absent
    [("2023-07-14T00:00Z".data,
      ⟨some 1, ⟨some 5, none, none, none, none, none, none, none, none, none, none⟩⟩)]
    ("2023-07-14T00:00:00Z".data) ("2023-07-14T00:00Z".data) 99
    ⟨some 7, some 8, none, none, none, none, none, none, none, none, none⟩
    ⟨some 1, ⟨some 5, none, none, none, none, none, none, none, none, none, none⟩⟩
    (by decide) (by decide)

/-- Claim C1 (divergence witness): the two timestamp renderings of the same
instant normalize identically, yet `run_forecast_update`'s matching compares
raw strings, so the fetched actual sample is not recognized and no promotion
happens; moreover a point without an `is_forecast` key (as
`CarbonIntensityAPI.get_intensity_data` returns) never matches even with an
identical raw timestamp. -/
theorem claim_C1_promotion_ignores_normalization :
    (normalizeTimestamp ("2023-07-14T00:00:00Z".data) =
        normalizeTimestamp ("2023-07-14T00:00Z".data) ∧
      normalizeTimestamp ("2023-07-14T00:00:00Z".data) ≠ none) ∧
    processForecastRecord ("2023-07-14T00:00Z".data)
      [⟨"2023-07-14T00:00:00Z".data, 100, some false⟩]
      [("2023-07-14T00:00Z".data, ⟨250, some true, some false⟩)] =
      (0, [("2023-07-14T00:00Z".data, ⟨250, some true, some false⟩)]) ∧
    forecastPromotionMatch ⟨"2023-07-14T00:00Z".data, 100, none⟩
      ("2023-07-14T00:00Z".data) = false :=
  ⟨⟨by decide, by decide⟩, by decide, by decide⟩

/-- Claim C3 (divergence witness): with granularity 60, three consecutive
missing hourly instants come back as three separate single-point gaps because
the consolidation step hardcodes a 30-minute (1800 s) stride; with
granularity 30 the same window is merged into one gap. -/
theorem claim_C3_merge_stride_hardcoded :
    detectDataGaps true [] 60 (some 0) (some 7200) =
      .ok [(0, 0), (3600, 3600), (7200, 7200)] ∧
    detectDataGaps true [] 30 (some 0) (some 7200) = .ok [(0, 7200)] :=
  ⟨by decide, by decide⟩

/-- Claim C6: gap detection rejects a call with the empty-series outcome when
the table holds no samples and no explicit window was given, and with the
invalid-window outcome when an explicit window has `start ≥ end`. -/
theorem claim_C6_detect_error_outcomes :
    (∀ g : Int, detectDataGaps true [] g none none = .emptySeries) ∧
    (∀ (stored : List PyStr) (g s e : Int), s ≥ e →
      detectDataGaps true stored g (some s) (some e) = .invalidWindow) := by
  constructor
  · intro g
    rfl
  · intro stored g s e h
    show detectCore stored g s e = .invalidWindow
    unfold detectCore
    rw [if_pos h]

/-- Witness for C6 on a concrete empty store and a concrete degenerate
window. -/
theorem claim_C6_detect_error_outcomes_witness :
    detectDataGaps true [] 30 none none = .emptySeries ∧
    detectDataGaps true ["1970-01-01T01:00Z".data] 30 (some 100) (some 100) =
      .invalidWindow :=
  ⟨claim_C6_detect_error_outcomes.1 30,
    claim_C6_detect_error_outcomes.2 _ 30 100 100 (by decide)⟩

/-- At neighbors one interval before and after the gap instant, the
interpolation factor evaluates to one half. -/
theorem ciFactor_midpoint_eval :
    ciFactor ⟨"1970-01-01T00:00Z".data, 10, false⟩
      ⟨"1970-01-01T01:00Z".data, 20, false⟩ 1800 = some (1 / 2) := by
  have hb : parseIsoZ ("1970-01-01T00:00Z".data) = some 0 := by decide
  have ha : parseIsoZ ("1970-01-01T01:00Z".data) = some 3600 := by decide
  unfold ciFactor
  rw [hb, ha]
  norm_num

/-- Claim C8: for a single-point gap whose neighbors sit exactly one interval
away on each side (values 10 and 20), the factor is 1/2, the interpolated
record carries 15.0, and it is written with `is_interpolated = TRUE`. -/
theorem claim_C8_interpolation_midpoint :
    ciFactor ⟨"1970-01-01T00:00Z".data, 10, false⟩
      ⟨"1970-01-01T01:00Z".data, 20, false⟩ 1800 = some (1 / 2) ∧
    interpolateCarbonIntensity ⟨"1970-01-01T00:00Z".data, 10, false⟩
      ⟨"1970-01-01T01:00Z".data, 20, false⟩ 1800 =
      some ⟨"1970-01-01T00:30Z".data, 15, false, true⟩ ∧
    insertInterpolatedData [] ⟨"1970-01-01T00:30Z".data, 15, false, true⟩ =
      (true, [("1970-01-01T00:30Z".data, ⟨15, some false, some true⟩)]) := by
  refine ⟨ciFactor_midpoint_eval, ?_, by decide⟩
  unfold interpolateCarbonIntensity
  rw [ciFactor_midpoint_eval]
  dsimp only
  have hts : formatTimestamp 1800 = "1970-01-01T00:30Z".data := by decide
  have hem : pyRound1 (10 + (20 - 10) * (1 / 2)) = 15 := by
    norm_num [pyRound1, roundHalfEven]
  rw [hts, hem]
  rfl

/-- The fetch loop issues at most one remote call per unit of fuel. -/
theorem backfillLoop_calls_le (api : Int → Int → Option (List FetchedPoint))
    (dbIns : FetchedPoint → Bool) (oldest currentStart hpcSec : Int) :
    ∀ (fuel callNum calls ins : Nat),
      (backfillLoop api dbIns oldest currentStart hpcSec callNum fuel calls ins).2.1 ≤
        calls + fuel := by
  intro fuel
  induction fuel with
  | zero =>
    intro callNum calls ins
    simp [backfillLoop]
  | succ n ih =>
    intro callNum calls ins
    unfold backfillLoop
    cases api (currentStart + hpcSec * callNum)
        (if currentStart + hpcSec * callNum + hpcSec ≥ oldest then oldest
          else currentStart + hpcSec * callNum + hpcSec) with
    | none => simp
    | some pts =>
      dsimp only
      split
      · have h2 := ih (callNum + 1) (calls + 1) ins
        omega
      · have h2 := ih (callNum + 1) (calls + 1) (ins + (pts.filter dbIns).length)
        omega

/-- The per-invocation fetch-call count of one series' backfill never exceeds
the configured budget, whatever the resolved oldest instant is. -/
theorem backfillFrom_calls_le (oldest now : Int) (cfg : BackfillConfig)
    (api : Int → Int → Option (List FetchedPoint)) (dbIns : FetchedPoint → Bool) :
    (backfillFrom oldest now cfg api dbIns).2.1 ≤ cfg.max_calls_per_cycle := by
  unfold backfillFrom
  split
  · simp
  split
  · simp
  have h1 := backfillLoop_calls_le api dbIns oldest
    (oldest - 3600 * (cfg.hours_per_call : Int) *
      (backfillCallsNeeded oldest (backfillTarget now cfg) cfg : Int))
    (3600 * (cfg.hours_per_call : Int))
    (backfillCallsNeeded oldest (backfillTarget now cfg) cfg) 0 0 0
  have h2 : backfillCallsNeeded oldest (backfillTarget now cfg) cfg ≤
      cfg.max_calls_per_cycle := Nat.min_le_left _ _
  omega

/-- Claim C4: one invocation of the backfill cycle for a series issues at most
`max_calls_per_cycle` remote fetch calls, however large the computed deficit
is and also when the store is empty. -/
theorem claim_C4_backfill_budget (stats : TableStats) (now : Int)
    (cfg : BackfillConfig) (api : Int → Int → Option (List FetchedPoint))
    (dbIns : FetchedPoint → Bool) :
    (backfillTableData stats now cfg api dbIns).2.1 ≤ cfg.max_calls_per_cycle := by
  cases stats with
  | statsError => simp [backfillTableData]
  | noData => exact backfillFrom_calls_le now now cfg api dbIns
  | hasData e =>
    cases e with
    | none => simp [backfillTableData]
    | some t => exact backfillFrom_calls_le t now cfg api dbIns

/-- Claim C5 counterexample: with a two-window deficit, a fetch that raises on
the first window makes the cycle return failure after a single call — the
remaining window is never issued — while the same setup without the error
issues both windows and succeeds. -/
theorem claim_C5_counterexample :
    backfillTableData (.hasData (some 0)) 0 ⟨1, 12, 5⟩
      (fun a _ => if a = -86400 then none else some []) (fun _ => true) =
      (false, 1, 0) ∧
    backfillTableData (.hasData (some 0)) 0 ⟨1, 12, 5⟩
      (fun _ _ => some []) (fun _ => true) = (true, 2, 0) := by
  constructor
  · rfl
  · rfl

/-- When no issued fetch raises, the loop runs to completion successfully,
issuing exactly one call per unit of fuel. -/
theorem backfillLoop_total_ok (api : Int → Int → Option (List FetchedPoint))
    (dbIns : FetchedPoint → Bool) (oldest currentStart hpcSec : Int)
    (hapi : ∀ a b, api a b ≠ none) :
    ∀ (fuel callNum calls ins : Nat),
      (backfillLoop api dbIns oldest currentStart hpcSec callNum fuel calls ins).1 = true ∧
      (backfillLoop api dbIns oldest currentStart hpcSec callNum fuel calls ins).2.1 =
        calls + fuel := by
  intro fuel
  induction fuel with
  | zero =>
    intro callNum calls ins
    simp [backfillLoop]
  | succ n ih =>
    intro callNum calls ins
    unfold backfillLoop
    cases h : api (currentStart + hpcSec * callNum)
        (if currentStart + hpcSec * callNum + hpcSec ≥ oldest then oldest
          else currentStart + hpcSec * callNum + hpcSec) with
    | none => exact absurd h (hapi _ _)
    | some pts =>
      dsimp only
      split
      · have h2 := ih (callNum + 1) (calls + 1) ins
        exact ⟨h2.1, by omega⟩
      · have h2 := ih (callNum + 1) (calls + 1) (ins + (pts.filter dbIns).length)
        exact ⟨h2.1, by omega⟩

/-- Claim C5 amended: a fetch window returning zero points is skipped and does
not fail the cycle — when no issued fetch raises, the cycle succeeds and all
budgeted windows are issued; a raising fetch window instead aborts the cycle
with failure (see the counterexample). -/
theorem claim_C5_zero_data_windows_skipped (t now : Int) (cfg : BackfillConfig)
    (api : Int → Int → Option (List FetchedPoint)) (dbIns : FetchedPoint → Bool)
    (hapi : ∀ a b, api a b ≠ none) (hhpc : cfg.hours_per_call ≠ 0) :
    (backfillTableData (.hasData (some t)) now cfg api dbIns).1 = true ∧
    (backfillTableData (.hasData (some t)) now cfg api dbIns).2.1 =
      backfillCallsNeeded t (backfillTarget now cfg) cfg := by
  have heq : backfillTableData (.hasData (some t)) now cfg api dbIns =
      backfillFrom t now cfg api dbIns := rfl
  rw [heq]
  unfold backfillFrom
  by_cases hle : t ≤ backfillTarget now cfg
  · rw [if_pos hle]
    refine ⟨rfl, ?_⟩
    have h0 : (t - backfillTarget now cfg).toNat = 0 :=
      Int.toNat_eq_zero.mpr (by omega)
    have h1 : (0 + cfg.hours_per_call - 1) / cfg.hours_per_call = 0 :=
      Nat.div_eq_of_lt (by omega)
    unfold backfillCallsNeeded
    rw [h0, h1]
    simp
  · rw [if_neg hle, if_neg hhpc]
    have h2 := backfillLoop_total_ok api dbIns t
      (t - 3600 * (cfg.hours_per_call : Int) *
        (backfillCallsNeeded t (backfillTarget now cfg) cfg : Int))
      (3600 * (cfg.hours_per_call : Int)) hapi
      (backfillCallsNeeded t (backfillTarget now cfg) cfg) 0 0 0
    exact ⟨h2.1, by omega⟩

/-- Witness for the amended C5: an always-empty fetch over a two-window
deficit succeeds and issues both windows. -/
theorem claim_C5_zero_data_windows_skipped_witness :
    (backfillTableData (.hasData (some 0)) 0 ⟨1, 12, 5⟩
      (fun _ _ => some []) (fun _ => true)).1 = true ∧
    (backfillTableData (.hasData (some 0)) 0 ⟨1, 12, 5⟩
      (fun _ _ => some []) (fun _ => true)).2.1 = 2 := by
  have h := claim_C5_zero_data_windows_skipped 0 0 ⟨1, 12, 5⟩
    (fun _ _ => some []) (fun _ => true) (fun _ _ => by simp) (by decide)
  exact ⟨h.1, h.2.trans (by decide)⟩

/-- The walk of the gap-range consolidator always emits its current range
start first. -/
theorem gccWalk_head (gSec : Int) :
    ∀ (l : List (Int × Int)) (cs ce : Int),
      ∃ e2 rest2, gccWalk gSec cs ce l = (cs, e2) :: rest2 := by
  intro l
  induction l with
  | nil => exact fun cs ce => ⟨ce, [], rfl⟩
  | cons p rest ih =>
    intro cs ce
    obtain ⟨gs, ge⟩ := p
    unfold gccWalk
    split
    · exact ih cs ge
    · obtain ⟨e2, r2, h⟩ := ih gs ge
      exact ⟨ce, (gs, e2) :: r2, by rw [h]⟩

/-- Ranges the consolidator's walk emits are never followed by a range whose
start is exactly one interval after their end. -/
theorem gccWalk_chain (gSec : Int) :
    ∀ (l : List (Int × Int)) (cs ce : Int),
      List.Chain' (fun a b => b.1 ≠ a.2 + gSec) (gccWalk gSec cs ce l) := by
  intro l
  induction l with
  | nil =>
    intro cs ce
    simp [gccWalk]
  | cons p rest ih =>
    intro cs ce
    obtain ⟨gs, ge⟩ := p
    unfold gccWalk
    split
    · exact ih cs ge
    · next hne =>
      obtain ⟨e2, r2, heq⟩ := gccWalk_head gSec rest gs ge
      rw [heq]
      have hch := ih gs ge
      rw [heq] at hch
      exact (List.chain'_cons).mpr ⟨hne, hch⟩

/-- Claim C7 counterexample: on disjoint, already-sorted input gaps the
consolidated output contains two (non-adjacent) ranges whose boundaries are
exactly one interval apart, refuting the pairwise form of the claim. -/
theorem claim_C7_counterexample :
    ¬ List.Pairwise (fun a b : Int × Int => b.1 ≠ a.2 + 1800 ∧ a.1 ≠ b.2 + 1800)
      (groupConsecutiveGaps [(0, 3600), (4500, 4500), (5400, 5400)] 30) := by
  decide

/-- Claim C7 amended: in the consolidated output, no range's start equals its
immediate predecessor's end plus one interval — adjacent output ranges are
never exactly one interval apart, for any finite multiset of input gaps. -/
theorem claim_C7_adjacent_ranges_separated (gaps : List (Int × Int)) (g : Int) :
    List.Chain' (fun a b => b.1 ≠ a.2 + 60 * g) (groupConsecutiveGaps gaps g) := by
  unfold groupConsecutiveGaps
  cases h : sortGapsByStart gaps with
  | nil => simp
  | cons p rest =>
    obtain ⟨s0, e0⟩ := p
    exact gccWalk_chain (60 * g) rest s0 e0

end Grid
